import Mathlib

/-!
Verification of the time-series normalization and aggregation logic of
`get-download-counts-from-galaxy.py` (the `Processing.generate_dfs_with_summary`
method and the `write_download_count_to_json` store update), shallowly embedded
in Lean.

The embedding mirrors the source: records are `(date, download_count)` pairs,
dates are parsed from `YYYYMMDD` strings exactly as
`pandas.to_datetime(..., format='%Y%m%d')` does (including the nanosecond
`Timestamp` range check), the series is sorted by date, day-over-day deltas are
`diff().fillna(0)`, the daily chart keeps only the rows whose date is at least
`datetime.now() - timedelta(days=30)`, and the monthly pivot sums deltas per
`YYYY/MM` key, appends a `"Total Result"` margins row and sorts rows by key.
The catch-all `except Exception` branch of `generate_dfs_with_summary`, which
returns `(0, empty, empty)`, is modelled by the empty-input and
failed-parse branches.
-/

namespace GalaxyStats

/-- A calendar date as parsed by `pandas.to_datetime(..., format='%Y%m%d')` in
`Processing.generate_dfs_with_summary` (line 260 of the source). -/
structure Date where
  y : Nat
  m : Nat
  d : Nat
deriving DecidableEq, Repr

/-- Gregorian leap-year rule (what `pandas` timestamps implement). -/
def isLeap (y : Nat) : Bool :=
  (y % 4 == 0 && y % 100 != 0) || y % 400 == 0

/-- Length of month `m` of year `y` (months are 1-based). -/
def daysInMonth (y m : Nat) : Nat :=
  if m = 2 then (if isLeap y then 29 else 28)
  else if m = 4 ∨ m = 6 ∨ m = 9 ∨ m = 11 then 30
  else 31

/-- Days of year `y` strictly before month `m`. -/
def daysBeforeMonth (y m : Nat) : Nat :=
  ((List.range (m - 1)).map (fun i => daysInMonth y (i + 1))).sum

/-- Day number of a date in the proleptic Gregorian calendar (0001-01-01 is
day 0).  This realises the ordering and day arithmetic of the `pandas`
timestamps the source sorts, diffs and filters on. -/
def toDayNum (dt : Date) : Nat :=
  365 * (dt.y - 1) + (dt.y - 1) / 4 - (dt.y - 1) / 100 + (dt.y - 1) / 400
    + daysBeforeMonth dt.y dt.m + (dt.d - 1)

/-- Seconds in a day; timestamps are modelled in seconds. -/
def secondsPerDay : Int := 86400

/-- The timestamp (seconds, midnight) of a date. -/
def dateSeconds (dt : Date) : Int := secondsPerDay * (toDayNum dt : Int)

/-- Decimal value of a digit list (most significant first). -/
def digitsToNat (cs : List Char) : Nat :=
  cs.foldl (fun a c => 10 * a + (c.toNat - 48)) 0

/-- Earliest calendar date whose midnight fits a nanosecond `pandas.Timestamp`
(`Timestamp.min` is 1677-09-21 00:12, so midnight of 1677-09-22). -/
def tsMinDate : Date := ⟨1677, 9, 22⟩

/-- Latest calendar date whose midnight fits a nanosecond `pandas.Timestamp`. -/
def tsMaxDate : Date := ⟨2262, 4, 11⟩

/-- `pandas.to_datetime(s, format='%Y%m%d')` on one stored date string: exactly
eight digits forming a calendar-valid date inside the `Timestamp` range;
`none` models the exception raised on a malformed value. -/
def parseDate (s : String) : Option Date :=
  let cs := s.data
  if cs.length = 8 ∧ cs.all Char.isDigit then
    let y := digitsToNat (cs.take 4)
    let m := digitsToNat ((cs.drop 4).take 2)
    let d := digitsToNat (cs.drop 6)
    if 1 ≤ m ∧ m ≤ 12 ∧ 1 ≤ d ∧ d ≤ daysInMonth y m
        ∧ toDayNum tsMinDate ≤ toDayNum ⟨y, m, d⟩
        ∧ toDayNum ⟨y, m, d⟩ ≤ toDayNum tsMaxDate then
      some ⟨y, m, d⟩
    else none
  else none

/-- `date.dt.strftime('%Y/%m')` (line 263): the month key of a date.  Years of
parsed dates lie in 1677..2262, so `%Y` prints four digits unpadded. -/
def monthStr (dt : Date) : String :=
  toString dt.y ++ "/" ++ (if dt.m < 10 then "0" ++ toString dt.m else toString dt.m)

/-- One record of `data/download_counts.json` as stored on disk. -/
structure RawRecord where
  date : String
  download_count : Int
deriving DecidableEq, Repr

/-- A record whose date column has been parsed by `pd.to_datetime`. -/
structure Rec where
  date : Date
  count : Int
deriving DecidableEq, Repr

/-- A row of the `df_daily_downloads` frame (date, `'Daily downloads'`). -/
structure DailyRow where
  date : Date
  daily_downloads : Int
deriving DecidableEq, Repr

/-- A row of the `pt_monthly_downloads` pivot (`month_year`,
`'Monthly downloads'`). -/
structure MonthlyRow where
  month_year : String
  monthly_downloads : Int
deriving DecidableEq, Repr

/-- The triple returned by `Processing.generate_dfs_with_summary`. -/
structure SummaryResult where
  last_download_count : Int
  df_daily_downloads : List DailyRow
  pt_monthly_downloads : List MonthlyRow
deriving DecidableEq, Repr

/-- `write_download_count_to_json` (lines 87-103) on the loaded record list:
the `for record in file_data` loop updates the first record carrying
`current_date` in place and stops (`break`); the `for`/`else` appends when no
record matches. -/
def write_download_count_to_json (dc : Int) (currentDate : String) :
    List RawRecord → List RawRecord
  | [] => [⟨currentDate, dc⟩]
  | r :: rs =>
      if r.date = currentDate then ⟨r.date, dc⟩ :: rs
      else r :: write_download_count_to_json dc currentDate rs

/-- The order `df.sort_values(by='date')` (line 264) sorts records by. -/
def recLe (a b : Rec) : Prop := toDayNum a.date ≤ toDayNum b.date

instance : DecidableRel recLe := fun _ _ => Nat.decLe _ _

instance : IsTotal Rec recLe := ⟨fun _ _ => Nat.le_total _ _⟩

instance : IsTrans Rec recLe := ⟨fun _ _ _ => Nat.le_trans⟩

/-- The order `pt_monthly_downloads.sort_values(by='month_year')` (line 291)
sorts pivot rows by: lexicographic order of the key strings. -/
def mrowLe (a b : MonthlyRow) : Prop := a.month_year ≤ b.month_year

instance : DecidableRel mrowLe := fun a b =>
  inferInstanceAs (Decidable (a.month_year ≤ b.month_year))

instance : IsTotal MonthlyRow mrowLe := ⟨fun a b => le_total a.month_year b.month_year⟩

instance : IsTrans MonthlyRow mrowLe := ⟨fun _ _ _ => le_trans⟩

/-- `df['download_count'].diff().fillna(0).astype(int)` (line 272): the first
entry's `NaN` becomes `0`, every later entry is the difference with the
previous entry of the sorted column. -/
def deltas : List Int → List Int
  | [] => []
  | c :: rest => 0 :: List.zipWith (fun a b => a - b) rest (c :: rest)

/-- `df.pivot_table(index='month_year', values='daily_downloads',
aggfunc='sum', margins=True, margins_name='Total Result')` followed by
`sort_values(by='month_year')` and `reset_index()` (lines 283-292): one row
per distinct month key holding the sum of its deltas, one `"Total Result"`
margins row holding the sum of all deltas, rows sorted by key string. -/
def pivotMonthly (rows : List (String × Int)) : List MonthlyRow :=
  let keys := (rows.map Prod.fst).dedup
  let body := keys.map fun k =>
    MonthlyRow.mk k (((rows.filter fun r => decide (r.fst = k)).map Prod.snd).sum)
  List.insertionSort mrowLe
    (body ++ [⟨"Total Result", (rows.map Prod.snd).sum⟩])

/-- `thirty_days_ago = datetime.now() - timedelta(days=30)` in seconds. -/
def thirtyDaysSeconds : Int := 30 * secondsPerDay

/-- The predicate of the filter
`df_daily_downloads[df_daily_downloads['date'] >= thirty_days_ago]`
(line 279), with `now` the run timestamp in seconds. -/
def inWindow (now : Int) (d : Date) : Bool :=
  decide (now - thirtyDaysSeconds ≤ dateSeconds d)

/-- `Processing.generate_dfs_with_summary` (lines 244-298) on parsed records:
sort by date, read `iloc[-1]` of `download_count`, compute
`diff().fillna(0)` deltas, keep the last 30 days for the daily frame, pivot
deltas by month key for the monthly frame.  On empty input the source raises
inside the `try` block (`iloc[-1]` on an empty column / missing columns) and
the `except` branch returns `(0, empty, empty)`; the empty branch here models
exactly that. -/
def generate_dfs_with_summary (now : Int) (recs : List Rec) : SummaryResult :=
  if recs = [] then ⟨0, [], []⟩
  else
    let sorted := List.insertionSort recLe recs
    let ds := deltas (sorted.map Rec.count)
    let daily := (sorted.zip ds).map fun p => DailyRow.mk p.fst.date p.snd
    let mrows := (sorted.zip ds).map fun p => (monthStr p.fst.date, p.snd)
    { last_download_count := (sorted.getLast?.map Rec.count).getD 0
      df_daily_downloads := daily.filter fun r => inWindow now r.date
      pt_monthly_downloads := pivotMonthly mrows }

/-- `pd.to_datetime` over the whole stored date column: a single malformed
date makes the conversion raise, so the result is all-or-nothing. -/
def parseAll : List RawRecord → Option (List Rec)
  | [] => some []
  | r :: rs =>
      match parseDate r.date, parseAll rs with
      | some d, some tl => some (⟨d, r.download_count⟩ :: tl)
      | _, _ => none

/-- The summary step on the raw stored records: a parse failure lands in the
`except Exception` branch of `generate_dfs_with_summary` (lines 296-298),
which logs the error and returns `(0, empty, empty)`. -/
def generateFromRaw (now : Int) (raw : List RawRecord) : SummaryResult :=
  match parseAll raw with
  | some recs => generate_dfs_with_summary now recs
  | none => ⟨0, [], []⟩

/-- Spec-side restatement of the daily series used by the implicit claim about
it: walk the date-sorted history carrying the previous reading's count; a
reading's delta is its count minus the carried count. -/
def specDeltaRows (prev : Int) : List Rec → List (Date × Int)
  | [] => []
  | r :: rs => (r.date, r.count - prev) :: specDeltaRows r.count rs

/-- Spec-side restatement, entry point: the first reading of the sorted
history gets delta `0`; no calendar date is ever inserted. -/
def specDailyRows : List Rec → List (Date × Int)
  | [] => []
  | r :: rs => (r.date, 0) :: specDeltaRows r.count rs

/-! Properties of the delta computation. -/

theorem deltas_length (cs : List Int) : (deltas cs).length = cs.length := by
  cases cs with
  | nil => rfl
  | cons c rest => simp [deltas, List.length_zipWith]

theorem zipWith_sub_sum (rest : List Int) (c : Int) :
    (List.zipWith (fun a b => a - b) rest (c :: rest)).sum = rest.getLastD c - c := by
  induction rest generalizing c with
  | nil => simp
  | cons a as ih =>
      rw [List.zipWith_cons_cons, List.sum_cons, ih, List.getLastD_cons]
      omega

theorem deltas_get (cs : List Int) (i : Nat) (h : i + 1 < cs.length) :
    (deltas cs).get ⟨i + 1, by rw [deltas_length]; exact h⟩
      = cs.get ⟨i + 1, h⟩ - cs.get ⟨i, by omega⟩ := by
  cases cs with
  | nil => simp at h
  | cons c rest =>
      simp [deltas, List.get_eq_getElem, List.getElem_cons_succ, List.getElem_zipWith]

/-- Claim C2: on a non-empty series of `N` records, the `diff().fillna(0)`
delta column has exactly `N` entries, its first entry is `0`, the deltas sum
to the last count minus the first count, and pairing the column back with
the records keeps the records' date order. -/
theorem deltas_of_dense_series (l : List Rec) (h : l ≠ []) :
    (deltas (l.map Rec.count)).length = l.length
      ∧ (deltas (l.map Rec.count)).head? = some 0
      ∧ (deltas (l.map Rec.count)).sum
          = (l.map Rec.count).getLastD 0 - (l.map Rec.count).headD 0
      ∧ ((l.zip (deltas (l.map Rec.count))).map fun p => p.fst.date)
          = l.map Rec.date := by
  refine ⟨by rw [deltas_length, List.length_map], ?_, ?_, ?_⟩
  · cases l with
    | nil => exact absurd rfl h
    | cons c rest => simp [deltas]
  · cases hm : l.map Rec.count with
    | nil => exact absurd (List.map_eq_nil_iff.mp hm) h
    | cons c rest =>
        rw [deltas, List.sum_cons, zipWith_sub_sum, List.getLastD_cons]
        simp
  · have hle : l.length ≤ (deltas (l.map Rec.count)).length := by
      rw [deltas_length, List.length_map]
    calc ((l.zip (deltas (l.map Rec.count))).map fun p => p.fst.date)
        = ((l.zip (deltas (l.map Rec.count))).map Prod.fst).map Rec.date := by
          rw [List.map_map]; rfl
      _ = l.map Rec.date := by rw [List.map_fst_zip _ _ hle]

/-- Witness for C2 at a concrete three-reading series. -/
theorem deltas_of_dense_series_witness :
    (deltas (([⟨⟨2024, 1, 1⟩, 100⟩, ⟨⟨2024, 1, 2⟩, 130⟩, ⟨⟨2024, 1, 3⟩, 120⟩] :
          List Rec).map Rec.count)).length
        = ([⟨⟨2024, 1, 1⟩, 100⟩, ⟨⟨2024, 1, 2⟩, 130⟩, ⟨⟨2024, 1, 3⟩, 120⟩] :
            List Rec).length
      ∧ (deltas (([⟨⟨2024, 1, 1⟩, 100⟩, ⟨⟨2024, 1, 2⟩, 130⟩, ⟨⟨2024, 1, 3⟩, 120⟩] :
            List Rec).map Rec.count)).head? = some 0
      ∧ (deltas (([⟨⟨2024, 1, 1⟩, 100⟩, ⟨⟨2024, 1, 2⟩, 130⟩, ⟨⟨2024, 1, 3⟩, 120⟩] :
            List Rec).map Rec.count)).sum
          = (([⟨⟨2024, 1, 1⟩, 100⟩, ⟨⟨2024, 1, 2⟩, 130⟩, ⟨⟨2024, 1, 3⟩, 120⟩] :
              List Rec).map Rec.count).getLastD 0
            - (([⟨⟨2024, 1, 1⟩, 100⟩, ⟨⟨2024, 1, 2⟩, 130⟩, ⟨⟨2024, 1, 3⟩, 120⟩] :
              List Rec).map Rec.count).headD 0
      ∧ ((([⟨⟨2024, 1, 1⟩, 100⟩, ⟨⟨2024, 1, 2⟩, 130⟩, ⟨⟨2024, 1, 3⟩, 120⟩] :
            List Rec).zip
            (deltas (([⟨⟨2024, 1, 1⟩, 100⟩, ⟨⟨2024, 1, 2⟩, 130⟩,
                ⟨⟨2024, 1, 3⟩, 120⟩] : List Rec).map Rec.count))).map
          fun p => p.fst.date)
          = ([⟨⟨2024, 1, 1⟩, 100⟩, ⟨⟨2024, 1, 2⟩, 130⟩, ⟨⟨2024, 1, 3⟩, 120⟩] :
              List Rec).map Rec.date :=
  deltas_of_dense_series
    [⟨⟨2024, 1, 1⟩, 100⟩, ⟨⟨2024, 1, 2⟩, 130⟩, ⟨⟨2024, 1, 3⟩, 120⟩] (by decide)

/-! Behaviour on empty input. -/

/-- Claim C4 (amended): on an empty stored series none of the processing
steps propagates an exception — the caught-exception path yields latest
value `0` with an *empty* daily frame and an *empty* monthly frame (no
zero-filled window entries and no total row). -/
theorem empty_series_result (now : Int) :
    generateFromRaw now [] = ⟨0, [], []⟩
      ∧ generate_dfs_with_summary now [] = ⟨0, [], []⟩ :=
  ⟨rfl, rfl⟩

/-- Counterexample to C4 as stated: for empty history and a five-day
window the claim demands five all-zero daily entries and a monthly total
row of `0`; the code produces zero daily entries and no monthly rows at
all. -/
theorem empty_series_no_dense_output :
    (generateFromRaw 0 []).df_daily_downloads.length ≠ 5
      ∧ (generateFromRaw 0 []).pt_monthly_downloads = [] := by
  exact ⟨by decide, rfl⟩

/-! Ordering of the monthly pivot. -/

theorem pivot_keys_sorted (rows : List (String × Int)) :
    List.Sorted (fun a b : String => a ≤ b)
      (((pivotMonthly rows).filter fun r => !decide (r.month_year = "Total Result")).map
        MonthlyRow.month_year) := by
  have hs : List.Sorted mrowLe (pivotMonthly rows) :=
    List.sorted_insertionSort mrowLe _
  have hf := hs.filter (fun r => !decide (r.month_year = "Total Result"))
  exact hf.map MonthlyRow.month_year (fun a b hab => hab)

/-- Claim C9: the monthly summary's non-synthetic rows are ordered
ascending by their `YYYY/MM` key in string order. -/
theorem monthly_rows_sorted (now : Int) (recs : List Rec) :
    List.Sorted (fun a b : String => a ≤ b)
      ((((generate_dfs_with_summary now recs).pt_monthly_downloads).filter
          fun r => !decide (r.month_year = "Total Result")).map MonthlyRow.month_year) := by
  by_cases h : recs = []
  · subst h
    simp [generate_dfs_with_summary]
  · unfold generate_dfs_with_summary
    rw [if_neg h]
    exact pivot_keys_sorted _

/-! Sums in the monthly pivot: total row and per-month rows. -/

theorem sum_filter_disjoint (l : List (String × Int)) (p q : String × Int → Bool)
    (hdisj : ∀ x, p x = true → q x = false) :
    ((l.filter fun x => p x || q x).map Prod.snd).sum
      = ((l.filter p).map Prod.snd).sum + ((l.filter q).map Prod.snd).sum := by
  induction l with
  | nil => simp
  | cons a t ih =>
      cases hp : p a with
      | true =>
          have hq : q a = false := hdisj a hp
          simp [List.filter_cons, hp, hq, ih]
          omega
      | false =>
          cases hq : q a with
          | true =>
              simp [List.filter_cons, hp, hq, ih]
              omega
          | false => simp [List.filter_cons, hp, hq, ih]

theorem sum_fibers_keys (rows : List (String × Int)) (keys : List String)
    (hk : keys.Nodup) :
    (keys.map fun k => ((rows.filter fun r => decide (r.fst = k)).map Prod.snd).sum).sum
      = ((rows.filter fun r => decide (r.fst ∈ keys)).map Prod.snd).sum := by
  induction keys with
  | nil => simp
  | cons k ks ih =>
      rw [List.nodup_cons] at hk
      rw [List.map_cons, List.sum_cons, ih hk.2]
      have hcongr : (rows.filter fun r => decide (r.fst ∈ k :: ks))
          = rows.filter fun r => (decide (r.fst = k) || decide (r.fst ∈ ks)) := by
        apply List.filter_congr
        intro x _
        simp [List.mem_cons]
      rw [hcongr, sum_filter_disjoint]
      intro x hx
      have hxk : x.fst = k := of_decide_eq_true hx
      refine decide_eq_false ?_
      rw [hxk]
      exact hk.1

theorem sum_fibers (rows : List (String × Int)) :
    ((rows.map Prod.fst).dedup.map
        (fun k => ((rows.filter fun r => decide (r.fst = k)).map Prod.snd).sum)).sum
      = (rows.map Prod.snd).sum := by
  have hall : (rows.filter fun r => decide (r.fst ∈ (rows.map Prod.fst).dedup)) = rows := by
    apply List.filter_eq_self.mpr
    intro r hr
    exact decide_eq_true (List.mem_dedup.mpr (List.mem_map_of_mem Prod.fst hr))
  rw [sum_fibers_keys rows _ (List.nodup_dedup _), hall]

theorem filter_insertionSort_perm (l : List MonthlyRow) (p : MonthlyRow → Bool) :
    ((List.insertionSort mrowLe l).filter p).Perm (l.filter p) :=
  (List.perm_insertionSort mrowLe l).filter p

theorem pivot_total_row (rows : List (String × Int))
    (h : ∀ r ∈ rows, r.fst ≠ "Total Result") :
    (pivotMonthly rows).filter (fun r => decide (r.month_year = "Total Result"))
      = [⟨"Total Result", (rows.map Prod.snd).sum⟩] := by
  unfold pivotMonthly
  apply List.perm_singleton.mp
  refine (filter_insertionSort_perm _ _).trans ?_
  rw [List.filter_append]
  have hbody : ((rows.map Prod.fst).dedup.map fun k =>
      MonthlyRow.mk k (((rows.filter fun r => decide (r.fst = k)).map Prod.snd).sum)).filter
        (fun r => decide (r.month_year = "Total Result")) = [] := by
    apply List.filter_eq_nil_iff.mpr
    intro a ha
    obtain ⟨k, hk, rfl⟩ := List.mem_map.mp ha
    obtain ⟨r, hr, hrk⟩ := List.mem_map.mp (List.mem_dedup.mp hk)
    simp only [decide_eq_true_eq]
    exact fun hEq => h r hr (hrk.trans hEq)
  rw [hbody, List.nil_append]
  simp

theorem pivot_body_sum (rows : List (String × Int))
    (h : ∀ r ∈ rows, r.fst ≠ "Total Result") :
    (((pivotMonthly rows).filter fun r => !decide (r.month_year = "Total Result")).map
        MonthlyRow.monthly_downloads).sum = (rows.map Prod.snd).sum := by
  unfold pivotMonthly
  rw [((filter_insertionSort_perm _ _).map MonthlyRow.monthly_downloads).sum_eq]
  rw [List.filter_append]
  have hbody : ((rows.map Prod.fst).dedup.map fun k =>
      MonthlyRow.mk k (((rows.filter fun r => decide (r.fst = k)).map Prod.snd).sum)).filter
        (fun r => !decide (r.month_year = "Total Result"))
      = (rows.map Prod.fst).dedup.map fun k =>
          MonthlyRow.mk k (((rows.filter fun r => decide (r.fst = k)).map Prod.snd).sum) := by
    apply List.filter_eq_self.mpr
    intro a ha
    obtain ⟨k, hk, rfl⟩ := List.mem_map.mp ha
    obtain ⟨r, hr, hrk⟩ := List.mem_map.mp (List.mem_dedup.mp hk)
    simp only [Bool.not_eq_true', decide_eq_false_iff_not]
    exact fun hEq => h r hr (hrk.trans hEq)
  have htot : ([(⟨"Total Result", (rows.map Prod.snd).sum⟩ : MonthlyRow)]).filter
      (fun r => !decide (r.month_year = "Total Result")) = [] := by simp
  rw [hbody, htot, List.append_nil, List.map_map]
  exact sum_fibers rows

/-- Claim C3: the synthetic `Total Result` row of the monthly pivot carries
the sum of all input deltas, and the per-month rows' values also sum to that
same number — grouping by month loses nothing. -/
theorem monthly_aggregation_sums (rows : List (String × Int))
    (h : ∀ r ∈ rows, r.fst ≠ "Total Result") :
    (pivotMonthly rows).filter (fun r => decide (r.month_year = "Total Result"))
        = [⟨"Total Result", (rows.map Prod.snd).sum⟩]
      ∧ (((pivotMonthly rows).filter fun r => !decide (r.month_year = "Total Result")).map
          MonthlyRow.monthly_downloads).sum = (rows.map Prod.snd).sum :=
  ⟨pivot_total_row rows h, pivot_body_sum rows h⟩

/-- Witness for C3 at a concrete delta list spanning two months with a
repeated month key. -/
theorem monthly_aggregation_sums_witness :
    (pivotMonthly [("2024/01", 3), ("2024/02", -1), ("2024/01", 4)]).filter
        (fun r => decide (r.month_year = "Total Result"))
        = [⟨"Total Result",
            (([("2024/01", 3), ("2024/02", -1), ("2024/01", 4)] :
                List (String × Int)).map Prod.snd).sum⟩]
      ∧ (((pivotMonthly [("2024/01", 3), ("2024/02", -1), ("2024/01", 4)]).filter
          fun r => !decide (r.month_year = "Total Result")).map
            MonthlyRow.monthly_downloads).sum
        = (([("2024/01", 3), ("2024/02", -1), ("2024/01", 4)] :
            List (String × Int)).map Prod.snd).sum :=
  monthly_aggregation_sums _ (by decide)

/-! Unfolding the pipeline on non-empty input. -/

theorem generate_last_eq (now : Int) (recs : List Rec) (h : recs ≠ []) :
    (generate_dfs_with_summary now recs).last_download_count
      = ((List.insertionSort recLe recs).getLast?.map Rec.count).getD 0 := by
  unfold generate_dfs_with_summary
  rw [if_neg h]

theorem generate_daily_eq (now : Int) (recs : List Rec) (h : recs ≠ []) :
    (generate_dfs_with_summary now recs).df_daily_downloads
      = (((List.insertionSort recLe recs).zip
            (deltas ((List.insertionSort recLe recs).map Rec.count))).map
          fun p => DailyRow.mk p.fst.date p.snd).filter (fun r => inWindow now r.date) := by
  unfold generate_dfs_with_summary
  rw [if_neg h]

theorem generate_monthly_eq (now : Int) (recs : List Rec) (h : recs ≠ []) :
    (generate_dfs_with_summary now recs).pt_monthly_downloads
      = pivotMonthly (((List.insertionSort recLe recs).zip
            (deltas ((List.insertionSort recLe recs).map Rec.count))).map
          fun p => (monthStr p.fst.date, p.snd)) := by
  unfold generate_dfs_with_summary
  rw [if_neg h]

theorem insertionSort_pair (r1 r2 : Rec) (h : recLe r1 r2) :
    List.insertionSort recLe [r1, r2] = [r1, r2] := by
  simp [List.insertionSort, List.orderedInsert, h]

/-! Negative deltas. -/

/-- Claim C7: between two consecutive-date readings whose later count is
smaller, the computed delta is the exact negative difference — never clamped
and never an error — and the monthly total row reflects that negative
value. -/
theorem negative_delta_surfaced (r1 r2 : Rec) (now : Int)
    (hconsec : toDayNum r2.date = toDayNum r1.date + 1)
    (hdec : r2.count < r1.count)
    (hm1 : monthStr r1.date ≠ "Total Result")
    (hm2 : monthStr r2.date ≠ "Total Result") :
    deltas [r1.count, r2.count] = [0, r2.count - r1.count]
      ∧ r2.count - r1.count < 0
      ∧ (generate_dfs_with_summary now [r1, r2]).pt_monthly_downloads.filter
          (fun r => decide (r.month_year = "Total Result"))
        = [⟨"Total Result", r2.count - r1.count⟩] := by
  have hle : recLe r1 r2 := by unfold recLe; omega
  have hsort := insertionSort_pair r1 r2 hle
  refine ⟨by simp [deltas], by omega, ?_⟩
  rw [generate_monthly_eq now [r1, r2] (by simp), hsort]
  have hzip : (([r1, r2].zip (deltas ([r1, r2].map Rec.count))).map
      fun p => (monthStr p.fst.date, p.snd))
      = [(monthStr r1.date, 0), (monthStr r2.date, r2.count - r1.count)] := by
    simp [deltas, List.zip]
  rw [hzip, pivot_total_row _ ?_]
  · simp
  · intro r hr
    rcases List.mem_cons.mp hr with rfl | hr2
    · exact hm1
    · rcases List.mem_cons.mp hr2 with rfl | hr3
      · exact hm2
      · simp at hr3

/-- Witness for C7: counter falls from 500 to 10 between 2024-01-01 and
2024-01-02; the delta is -490 and the monthly total row is -490. -/
theorem negative_delta_surfaced_witness :
    deltas [(⟨⟨2024, 1, 1⟩, 500⟩ : Rec).count, (⟨⟨2024, 1, 2⟩, 10⟩ : Rec).count]
        = [0, (⟨⟨2024, 1, 2⟩, 10⟩ : Rec).count - (⟨⟨2024, 1, 1⟩, 500⟩ : Rec).count]
      ∧ (⟨⟨2024, 1, 2⟩, 10⟩ : Rec).count - (⟨⟨2024, 1, 1⟩, 500⟩ : Rec).count < 0
      ∧ (generate_dfs_with_summary 0
            [⟨⟨2024, 1, 1⟩, 500⟩, ⟨⟨2024, 1, 2⟩, 10⟩]).pt_monthly_downloads.filter
          (fun r => decide (r.month_year = "Total Result"))
        = [⟨"Total Result",
            (⟨⟨2024, 1, 2⟩, 10⟩ : Rec).count - (⟨⟨2024, 1, 1⟩, 500⟩ : Rec).count⟩] :=
  negative_delta_surfaced ⟨⟨2024, 1, 1⟩, 500⟩ ⟨⟨2024, 1, 2⟩, 10⟩ 0
    (by decide) (by decide) (by decide) (by decide)

/-! The headline figure. -/

theorem sorted_le_getLast :
    ∀ (l : List Rec), List.Sorted recLe l → ∀ x ∈ l, ∀ (h : l ≠ []),
      recLe x (l.getLast h)
  | [], _, x, hx, h => absurd hx (by simp)
  | [a], _, x, hx, _ => by
      rcases List.mem_cons.mp hx with rfl | hmem
      · exact Nat.le_refl _
      · simp at hmem
  | a :: b :: t, hs, x, hx, _ => by
      rw [List.getLast_cons (by simp : (b :: t : List Rec) ≠ [])]
      rcases List.mem_cons.mp hx with rfl | hmem
      · exact (List.pairwise_cons.mp hs).1 _ (List.getLast_mem _)
      · exact sorted_le_getLast (b :: t) (List.pairwise_cons.mp hs).2 x hmem (by simp)

/-- Claim C8: for a non-empty series with distinct dates, the headline
`last_download_count` is the count of the reading with the maximal date,
whatever the run timestamp (so independently of the 30-day filter and of
the derived series). -/
theorem last_download_count_is_max_date (now : Int) (recs : List Rec) (r : Rec)
    (hnd : (recs.map fun x => toDayNum x.date).Nodup)
    (hr : r ∈ recs)
    (hmax : ∀ s ∈ recs, toDayNum s.date ≤ toDayNum r.date) :
    (generate_dfs_with_summary now recs).last_download_count = r.count := by
  have hne : recs ≠ [] := List.ne_nil_of_mem hr
  rw [generate_last_eq now recs hne]
  have hperm := List.perm_insertionSort recLe recs
  have hsne : List.insertionSort recLe recs ≠ [] := by
    intro hc
    rw [hc] at hperm
    exact hne hperm.symm.eq_nil
  rw [List.getLast?_eq_getLast _ hsne]
  have htmem : (List.insertionSort recLe recs).getLast hsne ∈ recs :=
    hperm.mem_iff.mp (List.getLast_mem hsne)
  have h1 : toDayNum ((List.insertionSort recLe recs).getLast hsne).date
      ≤ toDayNum r.date := hmax _ htmem
  have hrs : r ∈ List.insertionSort recLe recs := hperm.mem_iff.mpr hr
  have h2 : recLe r ((List.insertionSort recLe recs).getLast hsne) :=
    sorted_le_getLast _ (List.sorted_insertionSort recLe recs) r hrs hsne
  have heq : (fun x : Rec => toDayNum x.date) ((List.insertionSort recLe recs).getLast hsne)
      = (fun x : Rec => toDayNum x.date) r := le_antisymm h1 h2
  have hter := List.inj_on_of_nodup_map hnd htmem hr heq
  rw [hter]
  rfl

/-- Witness for C8 at a two-reading store whose later date carries count
80. -/
theorem last_download_count_is_max_date_witness :
    (generate_dfs_with_summary 0
        [⟨⟨2024, 1, 5⟩, 50⟩, ⟨⟨2024, 2, 1⟩, 80⟩]).last_download_count
      = (⟨⟨2024, 2, 1⟩, 80⟩ : Rec).count :=
  last_download_count_is_max_date 0 [⟨⟨2024, 1, 5⟩, 50⟩, ⟨⟨2024, 2, 1⟩, 80⟩]
    ⟨⟨2024, 2, 1⟩, 80⟩ (by decide) (by decide) (by decide)

/-! The store update. -/

/-- Claim C5: on a store with distinct dates, writing a reading for an
already-present date replaces that record's count in place (the store keeps
exactly one record for the date, carrying the new count, with every other
record untouched and the order of dates unchanged); for an absent date the
reading is appended. -/
theorem overwrite_law (dc : Int) (cd : String) (l : List RawRecord)
    (hnd : (l.map RawRecord.date).Nodup) :
    (cd ∈ l.map RawRecord.date →
        ((write_download_count_to_json dc cd l).map RawRecord.date
            = l.map RawRecord.date
          ∧ (write_download_count_to_json dc cd l).filter (fun r => decide (r.date = cd))
              = [⟨cd, dc⟩]
          ∧ (write_download_count_to_json dc cd l).filter (fun r => !decide (r.date = cd))
              = l.filter (fun r => !decide (r.date = cd))))
      ∧ (cd ∉ l.map RawRecord.date →
          write_download_count_to_json dc cd l = l ++ [⟨cd, dc⟩]) := by
  induction l with
  | nil =>
      refine ⟨fun hmem => ?_, fun _ => rfl⟩
      simp at hmem
  | cons a t ih =>
      rw [List.map_cons, List.nodup_cons] at hnd
      by_cases had : a.date = cd
      · have hnt : cd ∉ t.map RawRecord.date := had ▸ hnd.1
        constructor
        · intro _
          refine ⟨?_, ?_, ?_⟩
          · simp [write_download_count_to_json, had]
          · have htn : t.filter (fun r => decide (r.date = cd)) = [] := by
              apply List.filter_eq_nil_iff.mpr
              intro b hb
              simp only [decide_eq_true_eq]
              exact fun hbc => hnt (hbc ▸ List.mem_map_of_mem RawRecord.date hb)
            simp [write_download_count_to_json, had, List.filter_cons, htn]
          · simp [write_download_count_to_json, had, List.filter_cons]
        · intro hnm
          exact absurd (by simp [had]) hnm
      · have hwr : write_download_count_to_json dc cd (a :: t)
            = a :: write_download_count_to_json dc cd t := by
          simp [write_download_count_to_json, had]
        obtain ⟨ih1, ih2⟩ := ih hnd.2
        constructor
        · intro hmem
          rcases List.mem_cons.mp hmem with heq | hmt
          · exact absurd heq.symm had
          · obtain ⟨e1, e2, e3⟩ := ih1 hmt
            refine ⟨?_, ?_, ?_⟩
            · simp [hwr, e1]
            · simp [hwr, List.filter_cons, had, e2]
            · simp [hwr, List.filter_cons, had, e3]
        · intro hnm
          have hnt : cd ∉ t.map RawRecord.date := fun hc => hnm (List.mem_cons_of_mem _ hc)
          rw [hwr, ih2 hnt]
          rfl

/-- Witness for C5: overwriting date 20250102 in a two-record store, and
appending date 20250103 to it. -/
theorem overwrite_law_witness :
    ((write_download_count_to_json 250 "20250102"
          [⟨"20250101", 100⟩, ⟨"20250102", 200⟩]).filter
        (fun r => decide (r.date = "20250102")) = [⟨"20250102", 250⟩])
      ∧ write_download_count_to_json 250 "20250103"
            [⟨"20250101", 100⟩, ⟨"20250102", 200⟩]
          = [⟨"20250101", 100⟩, ⟨"20250102", 200⟩] ++ [⟨"20250103", 250⟩] :=
  ⟨((overwrite_law 250 "20250102" [⟨"20250101", 100⟩, ⟨"20250102", 200⟩]
        (by decide)).1 (by decide)).2.1,
    (overwrite_law 250 "20250103" [⟨"20250101", 100⟩, ⟨"20250102", 200⟩]
        (by decide)).2 (by decide)⟩

/-! The daily series: exactly the readings, with deltas over the full
history. -/

theorem specDeltaRows_eq_zip (rs : List Rec) (prev : Int) :
    ((rs.zip (List.zipWith (fun a b => a - b) (rs.map Rec.count)
        (prev :: rs.map Rec.count))).map fun p => (p.fst.date, p.snd))
      = specDeltaRows prev rs := by
  induction rs generalizing prev with
  | nil => rfl
  | cons s ss ih =>
      simp only [List.map_cons, List.zipWith_cons_cons, List.zip_cons_cons,
        specDeltaRows]
      rw [ih]

theorem zip_deltas_spec (l : List Rec) :
    ((l.zip (deltas (l.map Rec.count))).map fun p => (p.fst.date, p.snd))
      = specDailyRows l := by
  cases l with
  | nil => rfl
  | cons r rs =>
      simp only [List.map_cons, deltas, List.zip_cons_cons, specDailyRows]
      rw [specDeltaRows_eq_zip]

/-- Claim C10 (implicit): the daily chart series carries exactly the dates
of actual readings that pass the 30-day filter — no calendar densification —
and each retained entry's delta, including the earliest retained one, equals
the difference from the immediately preceding reading of the full sorted
history, because deltas are computed before the filter. -/
theorem daily_series_refines_spec (now : Int) (recs : List Rec) :
    (generate_dfs_with_summary now recs).df_daily_downloads.map
        (fun r => (r.date, r.daily_downloads))
      = (specDailyRows (List.insertionSort recLe recs)).filter
          (fun p => inWindow now p.fst) := by
  by_cases h : recs = []
  · subst h; rfl
  · rw [generate_daily_eq now recs h, ← zip_deltas_spec, List.filter_map,
      List.filter_map, List.map_map]
    rfl

/-- Claim C1 (amended): there is no gap-filling step — over the filter
window the daily frame holds exactly one entry per stored *reading* whose
date passes the 30-day filter, not one per calendar date, and every date
appearing in it is the date of a stored reading. -/
theorem daily_series_counts_readings (now : Int) (recs : List Rec) :
    (generate_dfs_with_summary now recs).df_daily_downloads.length
        = recs.countP (fun r => inWindow now r.date)
      ∧ ((generate_dfs_with_summary now recs).df_daily_downloads.map DailyRow.date).all
          (fun d => decide (d ∈ recs.map Rec.date)) = true := by
  by_cases h : recs = []
  · subst h
    exact ⟨rfl, rfl⟩
  · have hle : (List.insertionSort recLe recs).length
        ≤ (deltas ((List.insertionSort recLe recs).map Rec.count)).length := by
      rw [deltas_length, List.length_map]
    constructor
    · rw [generate_daily_eq now recs h]
      calc ((((List.insertionSort recLe recs).zip
            (deltas ((List.insertionSort recLe recs).map Rec.count))).map
              fun p => DailyRow.mk p.fst.date p.snd).filter
                (fun r => inWindow now r.date)).length
          = List.countP ((fun r : DailyRow => inWindow now r.date)
                ∘ fun p : Rec × Int => DailyRow.mk p.fst.date p.snd)
              ((List.insertionSort recLe recs).zip
                (deltas ((List.insertionSort recLe recs).map Rec.count))) := by
            rw [← List.countP_eq_length_filter, List.countP_map]
        _ = List.countP (fun r : Rec => inWindow now r.date)
              (((List.insertionSort recLe recs).zip
                (deltas ((List.insertionSort recLe recs).map Rec.count))).map
                  Prod.fst) :=
            (List.countP_map (fun r : Rec => inWindow now r.date) Prod.fst
              ((List.insertionSort recLe recs).zip
                (deltas ((List.insertionSort recLe recs).map Rec.count)))).symm
        _ = List.countP (fun r : Rec => inWindow now r.date)
              (List.insertionSort recLe recs) := by
            rw [List.map_fst_zip _ _ hle]
        _ = recs.countP (fun r => inWindow now r.date) :=
            (List.perm_insertionSort recLe recs).countP_eq _
    · rw [generate_daily_eq now recs h, List.all_eq_true]
      intro d hd
      obtain ⟨row, hrow, rfl⟩ := List.mem_map.mp hd
      have hrow2 := List.mem_of_mem_filter hrow
      obtain ⟨p, hp, rfl⟩ := List.mem_map.mp hrow2
      have hpz : (p.fst, p.snd) ∈ (List.insertionSort recLe recs).zip
          (deltas ((List.insertionSort recLe recs).map Rec.count)) := by
        simpa using hp
      have hfst : p.fst ∈ List.insertionSort recLe recs :=
        (List.of_mem_zip hpz).1
      have hmem : p.fst ∈ recs :=
        (List.perm_insertionSort recLe recs).mem_iff.mp hfst
      exact decide_eq_true (List.mem_map_of_mem Rec.date hmem)

/-- Counterexample to C1 as stated: history `{20240101: 100, 20240103: 130}`
spans an inclusive three-date window, yet the daily frame has two entries
and no entry at all for 20240102 — nothing is carried forward onto the
missing date. -/
theorem no_gap_filling_counterexample :
    toDayNum ⟨2024, 1, 3⟩ - toDayNum ⟨2024, 1, 1⟩ + 1 = 3
      ∧ (generateFromRaw (dateSeconds ⟨2024, 1, 3⟩)
            [⟨"20240101", 100⟩, ⟨"20240103", 130⟩]).df_daily_downloads.length = 2
      ∧ ((generateFromRaw (dateSeconds ⟨2024, 1, 3⟩)
            [⟨"20240101", 100⟩, ⟨"20240103", 130⟩]).df_daily_downloads.map
          DailyRow.date).all (fun d => decide (d ≠ ⟨2024, 1, 2⟩)) = true := by
  refine ⟨by decide, by decide, by decide⟩

/-! Malformed stored records. -/

theorem parseAll_eq_none (raw : List RawRecord)
    (h : ∃ r ∈ raw, parseDate r.date = none) : parseAll raw = none := by
  induction raw with
  | nil =>
      obtain ⟨r, hr, _⟩ := h
      simp at hr
  | cons a t ih =>
      obtain ⟨r, hr, hn⟩ := h
      rcases List.mem_cons.mp hr with rfl | hmem
      · cases h2 : parseAll t <;> simp [parseAll, hn, h2]
      · have ht : parseAll t = none := ih ⟨r, hmem, hn⟩
        cases h1 : parseDate a.date <;> simp [parseAll, ht, h1]

/-- Claim C6 (amended): one malformed stored record (unparseable date) makes
the column conversion raise, so the catch-all handler discards the whole
run's derived output and returns `(0, empty, empty)` — the well-formed
records do not survive into the output. -/
theorem malformed_record_discards_run (now : Int) (raw : List RawRecord)
    (h : ∃ r ∈ raw, parseDate r.date = none) :
    generateFromRaw now raw = ⟨0, [], []⟩ := by
  unfold generateFromRaw
  rw [parseAll_eq_none raw h]

/-- Witness for C6 (amended) at a store holding a record with date
`"2024010X"`. -/
theorem malformed_record_discards_run_witness :
    generateFromRaw 0 [⟨"20240101", 100⟩, ⟨"2024010X", 110⟩, ⟨"20240103", 130⟩]
      = ⟨0, [], []⟩ :=
  malformed_record_discards_run 0
    [⟨"20240101", 100⟩, ⟨"2024010X", 110⟩, ⟨"20240103", 130⟩]
    ⟨⟨"2024010X", 110⟩, by decide, by decide⟩

/-- Counterexample to C6 as stated: with the malformed record present the
output collapses to `(0, empty, empty)`, while processing only the two
well-formed records yields a different, non-empty output — so the run is
aborted wholesale, not continued on the remaining records. -/
theorem malformed_record_counterexample :
    generateFromRaw (dateSeconds ⟨2024, 1, 3⟩)
        [⟨"20240101", 100⟩, ⟨"2024010X", 110⟩, ⟨"20240103", 130⟩] = ⟨0, [], []⟩
      ∧ generateFromRaw (dateSeconds ⟨2024, 1, 3⟩)
          [⟨"20240101", 100⟩, ⟨"20240103", 130⟩] ≠ ⟨0, [], []⟩ := by
  exact ⟨by decide, by decide⟩

end GalaxyStats
